import Mathlib

/-!
Verification development for the NeuraVault molecular-docking data-management
plugin.  The TypeScript sources under `src/neuravault/src/actions` (and the
unnamed action files) are shallowly embedded here:

* JS numbers are modelled as `ℚ` (every numeric literal and every arithmetic
  operation appearing in the embedded code is exact in double precision on the
  values these programs produce, so the rational model is observationally
  faithful on that domain; JS `NaN`, reachable only through `parseFloat` of a
  degenerate capture such as `"--"`, is collapsed to `0` and never exercised
  by any theorem below).
* The SHA-256 digest (`createHash("sha256")`) is treated as an opaque
  function parameter `sha : String → String` / `h : String → String`;
  theorems quantify over it.
* The regular-expression searches of the sources are embedded as explicit
  scanning matchers.  Every pattern used by the sources has the shape
  "literal / one-or-more of a character class / capture", and in each of
  them the character class preceding a literal (or a capture class) is
  disjoint from the character that follows, so a greedy left-to-right
  matcher without backtracking computes exactly the JS leftmost match.
-/

set_option maxRecDepth 4000

/-- JS `\w` character class: ASCII letters, digits, underscore. -/
def isWordChar (c : Char) : Bool :=
  c.isAlphanum || c = '_'

/-- JS `\s` character class (ASCII part: space, tab, newline, CR, VT, FF). -/
def isJsSpace (c : Char) : Bool :=
  c = ' ' || c = '\t' || c = '\n' || c = '\r' || c = '\x0b' || c = '\x0c'

/-- The `[:\s]` class used by patterns like `receptor[:\s]+(\w+)`. -/
def isColonSpace (c : Char) : Bool :=
  c = ':' || isJsSpace c

/-- The `[-\d.]` class used by the numeric captures. -/
def isNumTok (c : Char) : Bool :=
  c = '-' || c.isDigit || c = '.'

/-- Greedy `p*`: split a character list into the maximal prefix satisfying
`p` and the remainder. -/
def grabWhile (p : Char → Bool) : List Char → List Char × List Char
  | [] => ([], [])
  | c :: rest =>
    if p c then
      let r := grabWhile p rest
      (c :: r.1, r.2)
    else ([], c :: rest)

/-- Consume a case-insensitive literal (the `i`-flag literals of the
sources); returns the rest of the input on success. -/
def dropLitCI : List Char → List Char → Option (List Char)
  | [], l => some l
  | _ :: _, [] => none
  | k :: ks, c :: cs => if k.toLower = c.toLower then dropLitCI ks cs else none

/-- Case-sensitive list-prefix test (needle first), for `String.includes`. -/
def startsList : List Char → List Char → Bool
  | [], _ => true
  | _ :: _, [] => false
  | a :: as, b :: bs => a = b && startsList as bs

/-- Case-sensitive substring containment on character lists. -/
def hasSub (n : List Char) : List Char → Bool
  | [] => startsList n []
  | c :: rest => startsList n (c :: rest) || hasSub n rest

/-- JS `content.includes(sub)`. -/
def jsIncludes (s sub : String) : Bool :=
  hasSub sub.data s.data

/-- JS `String.prototype.toUpperCase` (ASCII domain of this code base). -/
def jsToUpper (s : String) : String :=
  String.mk (s.data.map Char.toUpper)

/-- JS `String.prototype.toLowerCase` (ASCII domain of this code base). -/
def jsToLower (s : String) : String :=
  String.mk (s.data.map Char.toLower)

/-- Value of a digit list read in base 10. -/
def digitsVal (l : List Char) : Nat :=
  l.foldl (fun acc c => 10 * acc + (c.toNat - '0'.toNat)) 0

/-- JS `parseFloat`, restricted to the material produced by the `[-\d.]+`
captures of the sources: optional sign, integer digits, optional fraction;
the longest valid prefix is converted.  A capture with no valid numeric
prefix gives `NaN` in JS; that case is collapsed to `0` here and is not
exercised by any theorem in this file. -/
def jsParseFloat (s : String) : ℚ :=
  let l := s.data
  let signRest : Bool × List Char :=
    match l with
    | '-' :: r => (true, r)
    | '+' :: r => (false, r)
    | _ => (false, l)
  let ipRest := grabWhile Char.isDigit signRest.2
  let fp : List Char :=
    match ipRest.2 with
    | '.' :: r => (grabWhile Char.isDigit r).1
    | _ => []
  if ipRest.1.isEmpty && fp.isEmpty then 0
  else
    let mag : ℚ := (digitsVal ipRest.1 : ℚ) + (digitsVal fp : ℚ) / ((10 : ℚ) ^ fp.length)
    if signRest.1 then -mag else mag

/-- Scan a content list left to right, attempting `tryAt` at every suffix:
the JS leftmost-match search of `String.prototype.match`. -/
def scanFor (tryAt : List Char → Option (List Char)) : List Char → Option (List Char)
  | [] => tryAt []
  | c :: rest =>
    match tryAt (c :: rest) with
    | some r => some r
    | none => scanFor tryAt rest

/-- Attempt, at the current position, the pattern `kw[:\s]+(\w+)` (with the
`i` flag): the shape of the protein / ligand / receptor / title lookups. -/
def tryKwWord (kw : List Char) (l : List Char) : Option (List Char) :=
  match dropLitCI kw l with
  | none => none
  | some r1 =>
    match grabWhile isColonSpace r1 with
    | ([], _) => none
    | (_ :: _, r2) =>
      match grabWhile isWordChar r2 with
      | ([], _) => none
      | (c :: cs, _) => some (c :: cs)

/-- Attempt the pattern `kw[:\s]+([-\d.]+)` (with the `i` flag). -/
def tryKwNum (kw : List Char) (l : List Char) : Option (List Char) :=
  match dropLitCI kw l with
  | none => none
  | some r1 =>
    match grabWhile isColonSpace r1 with
    | ([], _) => none
    | (_ :: _, r2) =>
      match grabWhile isNumTok r2 with
      | ([], _) => none
      | (c :: cs, _) => some (c :: cs)

/-- Attempt the pattern `k1\s+k2[:\s]+([-\d.]+)` (with the `i` flag): the
shape of `Gold\s+Score[:\s]+([-\d.]+)` and `Docking\s+Score[:\s]+([-\d.]+)`. -/
def tryTwoKwNum (k1 k2 : List Char) (l : List Char) : Option (List Char) :=
  match dropLitCI k1 l with
  | none => none
  | some r1 =>
    match grabWhile isJsSpace r1 with
    | ([], _) => none
    | (_ :: _, r2) =>
      match dropLitCI k2 r2 with
      | none => none
      | some r3 =>
        match grabWhile isColonSpace r3 with
        | ([], _) => none
        | (_ :: _, r4) =>
          match grabWhile isNumTok r4 with
          | ([], _) => none
          | (c :: cs, _) => some (c :: cs)

/-- Attempt the Vina result-table pattern `\s+1\s+([-\d.]+)`. -/
def tryVinaTable (l : List Char) : Option (List Char) :=
  match grabWhile isJsSpace l with
  | ([], _) => none
  | (_ :: _, r1) =>
    match r1 with
    | '1' :: r2 =>
      match grabWhile isJsSpace r2 with
      | ([], _) => none
      | (_ :: _, r3) =>
        match grabWhile isNumTok r3 with
        | ([], _) => none
        | (c :: cs, _) => some (c :: cs)
    | _ => none

/-- Attempt the pattern `([-\d.]+)\s*kcal` (with the `i` flag). -/
def tryNumKcal (l : List Char) : Option (List Char) :=
  match grabWhile isNumTok l with
  | ([], _) => none
  | (c :: cs, r1) =>
    match dropLitCI "kcal".data (grabWhile isJsSpace r1).2 with
    | none => none
    | some _ => some (c :: cs)

/-- Attempt the pattern `affinity\s*=\s*([-\d.]+)` (with the `i` flag). -/
def tryAffinity (l : List Char) : Option (List Char) :=
  match dropLitCI "affinity".data l with
  | none => none
  | some r1 =>
    match (grabWhile isJsSpace r1).2 with
    | '=' :: r2 =>
      match grabWhile isNumTok (grabWhile isJsSpace r2).2 with
      | ([], _) => none
      | (c :: cs, _) => some (c :: cs)
    | _ => none

/-- Attempt the pattern `REMARK\s+Name\s*=\s*(\w+)` (with the `i` flag). -/
def tryRemarkName (l : List Char) : Option (List Char) :=
  match dropLitCI "remark".data l with
  | none => none
  | some r1 =>
    match grabWhile isJsSpace r1 with
    | ([], _) => none
    | (_ :: _, r2) =>
      match dropLitCI "name".data r2 with
      | none => none
      | some r3 =>
        match (grabWhile isJsSpace r3).2 with
        | '=' :: r4 =>
          match grabWhile isWordChar (grabWhile isJsSpace r4).2 with
          | ([], _) => none
          | (c :: cs, _) => some (c :: cs)
        | _ => none

/-- The `content.match(/kw[:\s]+(\w+)/i)`, returning the capture group. -/
def matchKwWord (kw content : String) : Option String :=
  (scanFor (tryKwWord kw.data) content.data).map (fun l => String.mk l)

/-- The `content.match(/kw[:\s]+([-\d.]+)/i)`, returning the capture group. -/
def matchKwNum (kw content : String) : Option String :=
  (scanFor (tryKwNum kw.data) content.data).map (fun l => String.mk l)

/-- The `content.match(/k1\s+k2[:\s]+([-\d.]+)/i)`, returning the capture. -/
def matchTwoKwNum (k1 k2 content : String) : Option String :=
  (scanFor (tryTwoKwNum k1.data k2.data) content.data).map (fun l => String.mk l)

/-- The `content.match(/\s+1\s+([-\d.]+)/)`, returning the capture group. -/
def matchVinaTable (content : String) : Option String :=
  (scanFor tryVinaTable content.data).map (fun l => String.mk l)

/-- The `content.match(/([-\d.]+)\s*kcal/i)`, returning the capture group. -/
def matchNumKcal (content : String) : Option String :=
  (scanFor tryNumKcal content.data).map (fun l => String.mk l)

/-- The `content.match(/affinity\s*=\s*([-\d.]+)/i)`, returning the capture. -/
def matchAffinity (content : String) : Option String :=
  (scanFor tryAffinity content.data).map (fun l => String.mk l)

/-- The `content.match(/REMARK\s+Name\s*=\s*(\w+)/i)`, returning the capture. -/
def matchRemarkName (content : String) : Option String :=
  (scanFor tryRemarkName content.data).map (fun l => String.mk l)

/-- The `ParsedDockingData` from `src/types.ts`. -/
structure ParsedDockingData where
  protein : String
  ligand : String
  binding_energy : ℚ
  docking_tool : String
  file_hash : String
deriving DecidableEq, Repr

/-- The `TaggedDockingData` from `src/types.ts` (`ParsedDockingData` plus tags
and confidence). -/
structure TaggedDockingData where
  protein : String
  ligand : String
  binding_energy : ℚ
  docking_tool : String
  file_hash : String
  tags : List String
  confidence : ℚ
deriving DecidableEq, Repr

/-- The `DockingResult` from `src/types.ts`: the persisted record schema.
`solana_tx : Option String` models `string | null`. -/
structure DockingResult where
  protein : String
  ligand : String
  binding_energy : ℚ
  docking_tool : String
  tags : List String
  confidence : ℚ
  file_hash : String
  timestamp : String
  solana_tx : Option String
deriving DecidableEq, Repr

namespace ParseFile

/-- The `parseVinaFormat` from `actions/parseDockingFile.ts` (lines 149-181).
The `catch` branch of the source is unreachable (no expression in the `try`
body can throw), so the embedded function always returns `some`. -/
def parseVinaFormat (content fileHash : String) : Option ParsedDockingData :=
  let protein :=
    match matchKwWord "receptor" content <|> matchKwWord "protein" content with
    | some p => p
    | none => "UNKNOWN"
  let ligand :=
    match matchKwWord "ligand" content <|> matchRemarkName content with
    | some l => l
    | none => "UNKNOWN"
  let binding_energy :=
    match matchVinaTable content with
    | some e => jsParseFloat e
    | none => 0
  some ⟨protein, ligand, binding_energy, "AutoDock Vina", fileHash⟩

/-- The `parseGoldFormat` from `actions/parseDockingFile.ts` (lines 186-211). -/
def parseGoldFormat (content fileHash : String) : Option ParsedDockingData :=
  let protein :=
    match matchKwWord "protein" content with
    | some p => p
    | none => "UNKNOWN"
  let ligand :=
    match matchKwWord "ligand" content with
    | some l => l
    | none => "UNKNOWN"
  let binding_energy :=
    match matchTwoKwNum "gold" "score" content with
    | some e => jsParseFloat e
    | none => 0
  some ⟨protein, ligand, binding_energy, "GOLD", fileHash⟩

/-- The `parseGlideFormat` from `actions/parseDockingFile.ts` (lines 216-241):
note the mock fallback values `MOCK_PROTEIN` / `MOCK_LIGAND` / `-7.5`. -/
def parseGlideFormat (content fileHash : String) : Option ParsedDockingData :=
  let protein :=
    match matchKwWord "receptor" content with
    | some p => p
    | none => "MOCK_PROTEIN"
  let ligand :=
    match matchKwWord "title" content with
    | some l => l
    | none => "MOCK_LIGAND"
  let binding_energy :=
    match matchTwoKwNum "docking" "score" content with
    | some e => jsParseFloat e
    | none => (-7.5 : ℚ)
  some ⟨protein, ligand, binding_energy, "Glide", fileHash⟩

/-- The `parseGenericFormat` from `actions/parseDockingFile.ts` (lines 246-263). -/
def parseGenericFormat (content fileHash : String) : Option ParsedDockingData :=
  if content.length < 10 then none
  else some ⟨"GENERIC_PROTEIN", "GENERIC_LIGAND", (-6 : ℚ), "Unknown", fileHash⟩

/-- The `parseDockingContent` from `actions/parseDockingFile.ts` (lines 127-144);
`sha` stands for the SHA-256 hex digest of the content. -/
def parseDockingContent (sha : String → String) (content : String) :
    Option ParsedDockingData :=
  let fileHash := sha content
  if jsIncludes content "AutoDock Vina" || jsIncludes content "VINA RESULT" then
    parseVinaFormat content fileHash
  else if jsIncludes content "GOLD" || jsIncludes content "Gold Score" then
    parseGoldFormat content fileHash
  else if jsIncludes content "Glide" || jsIncludes content "GLIDE" then
    parseGlideFormat content fileHash
  else
    parseGenericFormat content fileHash

end ParseFile

/-- The binding-energy tier if-chain, appearing verbatim both in
`applyTags` of the AUTO_TAG_DOCKING_RESULT action (part_005 lines
125-135) and in `applyTags` of `processDockingWorkflow.ts` (lines
202-206); factored out because the two sources share it character for
character. -/
def energyTier (e : ℚ) : String :=
  if e < -10 then "very_strong_binder"
  else if e < -8 then "strong_binder"
  else if e < -6 then "moderate_binder"
  else if e < -4 then "weak_binder"
  else "very_weak_binder"

/-- Worker for `squashWs`: the flag records whether the previous character
belonged to a whitespace run that has already emitted its underscore. -/
def squashWsAux : Bool → List Char → List Char
  | _, [] => []
  | inRun, c :: rest =>
    if isJsSpace c then
      if inRun then squashWsAux true rest
      else '_' :: squashWsAux true rest
    else c :: squashWsAux false rest

/-- Replace every maximal run of JS whitespace by a single underscore:
`.replace(/\s+/g, "_")`. -/
def squashWs (l : List Char) : List Char :=
  squashWsAux false l

/-- The tool tag `` `tool_${data.docking_tool.toLowerCase().replace(/\s+/g, "_")}` ``
built identically by both `applyTags` implementations. -/
def toolTag (tool : String) : String :=
  "tool_" ++ String.mk (squashWs (jsToLower tool).data)

/-- Recognizer for the five energy-tier tag strings. -/
def isTierTag (s : String) : Bool :=
  decide (s = "very_strong_binder" ∨ s = "strong_binder" ∨ s = "moderate_binder" ∨
    s = "weak_binder" ∨ s = "very_weak_binder")

namespace AutoTag

/-- The `calculateConfidence` from the AUTO_TAG_DOCKING_RESULT action
(part_005 lines 166-190). -/
def calculateConfidence (data : ParsedDockingData) : ℚ :=
  let s1 : ℚ :=
    if data.protein ≠ "UNKNOWN" ∧ data.protein ≠ "GENERIC_PROTEIN" then 0.3 else 0
  let s2 : ℚ :=
    if data.ligand ≠ "UNKNOWN" ∧ data.ligand ≠ "GENERIC_LIGAND" then 0.3 else 0
  let s3 : ℚ :=
    if data.binding_energy ≠ 0 ∧ data.binding_energy < 0 then 0.2 else 0
  let s4 : ℚ :=
    if data.docking_tool ≠ "Unknown" then 0.2 else 0
  min (s1 + s2 + s3 + s4) 1

/-- The `applyTags` from the AUTO_TAG_DOCKING_RESULT action (part_005 lines
118-161): energy-tier tag, tool tag, protein/ligand identification tags
(with explicit `_unknown` tags), then the confidence score. -/
def applyTags (data : ParsedDockingData) : TaggedDockingData :=
  let tierTag := energyTier data.binding_energy
  let pTag :=
    if data.protein ≠ "UNKNOWN" ∧ data.protein ≠ "GENERIC_PROTEIN" then
      "protein_identified"
    else "protein_unknown"
  let lTag :=
    if data.ligand ≠ "UNKNOWN" ∧ data.ligand ≠ "GENERIC_LIGAND" then
      "ligand_identified"
    else "ligand_unknown"
  { protein := data.protein
    ligand := data.ligand
    binding_energy := data.binding_energy
    docking_tool := data.docking_tool
    file_hash := data.file_hash
    tags := [tierTag, toolTag data.docking_tool, pTag, lTag]
    confidence := calculateConfidence data }

/-- The MISSING_PARSED_DATA guard of `autoTagDockingResultAction.handler`
(part_005 lines 50-65): with no upstream parsed data the handler returns a
failure result and performs no further work. -/
def autoTagHandler (input : Option ParsedDockingData) :
    Except String TaggedDockingData :=
  match input with
  | none => Except.error "MISSING_PARSED_DATA"
  | some d => Except.ok (applyTags d)

end AutoTag

namespace Workflow

/-- The inline `parseDockingContent` of `processDockingWorkflow.ts`
(lines 161-196): always returns a record (there is no failure path). -/
def parseDockingContent (sha : String → String) (content : String) :
    ParsedDockingData :=
  let fileHash := sha content
  let protein :=
    match matchKwWord "receptor" content <|> matchKwWord "protein" content with
    | some p => p
    | none => "UNKNOWN"
  let ligand :=
    match matchKwWord "ligand" content with
    | some l => l
    | none => "UNKNOWN"
  let binding_energy :=
    match matchKwNum "energy" content <|> matchNumKcal content <|>
        matchAffinity content <|> matchVinaTable content with
    | some e => jsParseFloat e
    | none => 0
  let docking_tool :=
    if jsIncludes content "Vina" then "AutoDock Vina"
    else if jsIncludes content "GOLD" then "GOLD"
    else if jsIncludes content "Glide" then "Glide"
    else "Unknown"
  ⟨protein, ligand, binding_energy, docking_tool, fileHash⟩

/-- The inline `applyTags` of `processDockingWorkflow.ts` (lines 198-224):
identification tags are pushed only in the positive case (no `_unknown`
tags), and the confidence indicators test only the `UNKNOWN` /
`Unknown` sentinels (not the `GENERIC_*` ones). -/
def applyTags (data : ParsedDockingData) : TaggedDockingData :=
  let tags :=
    [energyTier data.binding_energy, toolTag data.docking_tool] ++
      (if data.protein ≠ "UNKNOWN" then ["protein_identified"] else []) ++
      (if data.ligand ≠ "UNKNOWN" then ["ligand_identified"] else [])
  let c1 : ℚ := if data.protein ≠ "UNKNOWN" then 0.3 else 0
  let c2 : ℚ := if data.ligand ≠ "UNKNOWN" then 0.3 else 0
  let c3 : ℚ := if data.binding_energy ≠ 0 ∧ data.binding_energy < 0 then 0.2 else 0
  let c4 : ℚ := if data.docking_tool ≠ "Unknown" then 0.2 else 0
  { protein := data.protein
    ligand := data.ligand
    binding_energy := data.binding_energy
    docking_tool := data.docking_tool
    file_hash := data.file_hash
    tags := tags
    confidence := min (c1 + c2 + c3 + c4) 1 }

end Workflow

/-- The `JSON.stringify` escaping for one character (the characters actually
occurring in this code base's field values; other control characters keep
their `\uXXXX` form in JS and never occur here). -/
def jsonEscapeChar (c : Char) : List Char :=
  if c = '"' then ['\\', '"']
  else if c = '\\' then ['\\', '\\']
  else if c = '\n' then ['\\', 'n']
  else if c = '\r' then ['\\', 'r']
  else if c = '\t' then ['\\', 't']
  else [c]

/-- The `JSON.stringify` of a string value. -/
def jsonStr (s : String) : String :=
  "\"" ++ String.mk (s.data.flatMap jsonEscapeChar) ++ "\""

/-- The `JSON.stringify` of a JS number, for numbers whose double value is an
exact decimal (every number constructed by this code base is one: parsed
decimal literals, the fixed defaults, and sums of 0.3/0.2 steps, all exact
in binary64 and printed by JS as their shortest decimal).  Implemented on
the reduced `num`/`den` representation: the smallest `k` with
`den ∣ 10^k` gives the shortest decimal expansion; the `none` branch is
unreachable on the domain above. -/
def qDecimalString (q : ℚ) : String :=
  if q.num = 0 then "0"
  else
    let sgn := if q.num < 0 then "-" else ""
    if q.den = 1 then sgn ++ toString q.num.natAbs
    else
      match (List.range 40).find? (fun k => 10 ^ k % q.den = 0) with
      | none => sgn ++ toString q.num.natAbs ++ "/" ++ toString q.den
      | some k =>
        let n := q.num.natAbs * (10 ^ k / q.den)
        let ip := n / 10 ^ k
        let fp := n % 10 ^ k
        let fs := toString fp
        let pad := String.mk (List.replicate (k - fs.length) '0')
        sgn ++ toString ip ++ "." ++ pad ++ fs

/-- The `JSON.stringify` of an array of strings. -/
def jsonStrList (l : List String) : String :=
  "[" ++ String.intercalate "," (l.map jsonStr) ++ "]"

/-- The `JSON.stringify` of `string | null`. -/
def jsonOptStr : Option String → String
  | none => "null"
  | some s => jsonStr s

namespace StoreMeta

/-- The agent settings read by `createSolanaProof`
(`SOLANA_RPC_URL`, `SOLANA_PRIVATE_KEY`); `none` models an absent setting. -/
structure Settings where
  rpcUrl : Option String
  privateKey : Option String

/-- JS falsiness of a `string | null` setting value (`!solanaRpcUrl`):
absent or empty. -/
def jsFalsy : Option String → Bool
  | none => true
  | some s => decide (s = "")

/-- The canonical metadata serialization of `createSolanaProof`
(`storeMetadata.ts` lines 195-204): `JSON.stringify` of exactly the fields
protein, ligand, binding_energy, docking_tool, tags, confidence, file_hash,
timestamp, in that key order. -/
def canonicalMetadataString (r : DockingResult) : String :=
  "\x7b\"protein\":" ++ jsonStr r.protein ++
  ",\"ligand\":" ++ jsonStr r.ligand ++
  ",\"binding_energy\":" ++ qDecimalString r.binding_energy ++
  ",\"docking_tool\":" ++ jsonStr r.docking_tool ++
  ",\"tags\":" ++ jsonStrList r.tags ++
  ",\"confidence\":" ++ qDecimalString r.confidence ++
  ",\"file_hash\":" ++ jsonStr r.file_hash ++
  ",\"timestamp\":" ++ jsonStr r.timestamp ++ "\x7d"

/-- The `createSolanaProof` from `storeMetadata.ts` (lines 180-227): `none`
when the ledger is not configured, otherwise the mock transaction id
`"MOCK_" + sha256(canonical serialization).substring(0, 16)`; `h` stands
for the SHA-256 hex digest. -/
def createSolanaProof (h : String → String) (st : Settings)
    (data : DockingResult) : Option String :=
  if jsFalsy st.rpcUrl || jsFalsy st.privateKey then none
  else some ("MOCK_" ++ (h (canonicalMetadataString data)).take 16)

/-- The `storeInDatabase` from `storeMetadata.ts` (lines 149-174): the record
is completed with the timestamp and a null `solana_tx`. -/
def storeInDatabase (t : TaggedDockingData) (ts : String) : DockingResult :=
  { protein := t.protein
    ligand := t.ligand
    binding_energy := t.binding_energy
    docking_tool := t.docking_tool
    tags := t.tags
    confidence := t.confidence
    file_hash := t.file_hash
    timestamp := ts
    solana_tx := none }

/-- The `finalResult` object of `storeMetadataAction.handler` (lines
82-85): the stored record with `solana_tx` filled in from the proof. -/
def finalRecord (h : String → String) (st : Settings)
    (t : TaggedDockingData) (ts : String) : DockingResult :=
  let sd := storeInDatabase t ts
  { sd with solana_tx := createSolanaProof h st sd }

/-- The `storeMetadataAction.handler` (lines 39-115), reduced to its data
behaviour: reject with MISSING_TAGGED_DATA when no upstream tagged data is
present (store untouched), otherwise build the final record and persist
it (`runtime.createMemory`, modelled as appending to the store list). -/
def storeMetadataHandler (h : String → String) (st : Settings)
    (input : Option TaggedDockingData) (ts : String)
    (store : List DockingResult) :
    Except String DockingResult × List DockingResult :=
  match input with
  | none => (Except.error "MISSING_TAGGED_DATA", store)
  | some t => (Except.ok (finalRecord h st t ts), store ++ [finalRecord h st t ts])

end StoreMeta

namespace Workflow

/-- The `JSON.stringify(result)` as computed by `processDockingWorkflow.ts`
line 108: the full record in insertion order — protein, ligand,
binding_energy, docking_tool, file_hash (from the parsed data), tags,
confidence, timestamp, solana_tx. -/
def workflowResultString (r : DockingResult) : String :=
  "\x7b\"protein\":" ++ jsonStr r.protein ++
  ",\"ligand\":" ++ jsonStr r.ligand ++
  ",\"binding_energy\":" ++ qDecimalString r.binding_energy ++
  ",\"docking_tool\":" ++ jsonStr r.docking_tool ++
  ",\"file_hash\":" ++ jsonStr r.file_hash ++
  ",\"tags\":" ++ jsonStrList r.tags ++
  ",\"confidence\":" ++ qDecimalString r.confidence ++
  ",\"timestamp\":" ++ jsonStr r.timestamp ++
  ",\"solana_tx\":" ++ jsonOptStr r.solana_tx ++ "\x7d"

/-- The `result` object pushed into `global.dockingResults`
(`processDockingWorkflow.ts` lines 92-104): tagged data plus timestamp,
with `solana_tx` still null. -/
def appendTimeRecord (t : TaggedDockingData) (ts : String) : DockingResult :=
  { protein := t.protein
    ligand := t.ligand
    binding_energy := t.binding_energy
    docking_tool := t.docking_tool
    tags := t.tags
    confidence := t.confidence
    file_hash := t.file_hash
    timestamp := ts
    solana_tx := none }

/-- The mock transaction id of `processDockingWorkflow.ts` lines 107-110:
`"MOCK_" + sha256(JSON.stringify(result)).substring(0, 16)`, computed on
the record while its `solana_tx` is still null. -/
def mockTxId (h : String → String) (r : DockingResult) : String :=
  "MOCK_" ++ (h (workflowResultString r)).take 16

/-- In-place mutation of the most recently pushed element of the global
array: the effect of `result.solana_tx = mockTxId` on
`global.dockingResults` after `push(result)` stored the same reference. -/
def mutateLast (f : DockingResult → DockingResult) :
    List DockingResult → List DockingResult
  | [] => []
  | [r] => [f r]
  | r :: s :: rest => r :: mutateLast f (s :: rest)

/-- State of `global.dockingResults` right after
`global.dockingResults.push(result)` (line 104). -/
def afterPush (t : TaggedDockingData) (ts : String)
    (store : List DockingResult) : List DockingResult :=
  store ++ [appendTimeRecord t ts]

/-- State of `global.dockingResults` at the end of the handler, after line
111 (`result.solana_tx = mockTxId`) mutated the pushed object. -/
def finalStore (h : String → String) (t : TaggedDockingData) (ts : String)
    (store : List DockingResult) : List DockingResult :=
  mutateLast (fun r => { r with solana_tx := some (mockTxId h (appendTimeRecord t ts)) })
    (afterPush t ts store)

end Workflow

namespace Query

/-- The `QueryFilters` interface of the QUERY_DOCKING_DATA action
(part_006 lines 160-167). -/
structure QueryFilters where
  protein : Option String
  ligand : Option String
  minEnergy : Option ℚ
  maxEnergy : Option ℚ
  tool : Option String
  tags : Option (List String)

/-- The filter with no constraint in any dimension. -/
def emptyFilters : QueryFilters :=
  ⟨none, none, none, none, none, none⟩

/-- The `if (filters.protein)` block of `queryDatabase` (part_006 lines
264-268): case-insensitive substring containment via `toUpperCase`. -/
def filterProtein (o : Option String) (l : List DockingResult) :
    List DockingResult :=
  match o with
  | some p => l.filter (fun r => jsIncludes (jsToUpper r.protein) (jsToUpper p))
  | none => l

/-- The `if (filters.ligand)` block of `queryDatabase` (lines 270-274). -/
def filterLigand (o : Option String) (l : List DockingResult) :
    List DockingResult :=
  match o with
  | some lg => l.filter (fun r => jsIncludes (jsToUpper r.ligand) (jsToUpper lg))
  | none => l

/-- The `if (filters.minEnergy !== undefined)` block (lines 276-278):
inclusive lower bound. -/
def filterMinEnergy (o : Option ℚ) (l : List DockingResult) :
    List DockingResult :=
  match o with
  | some m => l.filter (fun r => decide (m ≤ r.binding_energy))
  | none => l

/-- The `if (filters.maxEnergy !== undefined)` block (lines 280-282):
inclusive upper bound. -/
def filterMaxEnergy (o : Option ℚ) (l : List DockingResult) :
    List DockingResult :=
  match o with
  | some m => l.filter (fun r => decide (r.binding_energy ≤ m))
  | none => l

/-- The `if (filters.tool)` block (lines 284-288): case-insensitive
substring containment via `toLowerCase`. -/
def filterTool (o : Option String) (l : List DockingResult) :
    List DockingResult :=
  match o with
  | some t => l.filter (fun r => jsIncludes (jsToLower r.docking_tool) (jsToLower t))
  | none => l

/-- The `if (filters.tags && filters.tags.length > 0)` block (lines
290-294): keep a record when any requested tag is present. -/
def filterTags (o : Option (List String)) (l : List DockingResult) :
    List DockingResult :=
  match o with
  | some tgs =>
    if 0 < tgs.length then
      l.filter (fun r => tgs.any (fun tag => r.tags.contains tag))
    else l
  | none => l

/-- The `queryDatabase` from the QUERY_DOCKING_DATA action (part_006 lines
235-303), applied to the records extracted from memory: each present
filter dimension narrows the result list in turn, in source order. -/
def queryDatabase (f : QueryFilters) (results : List DockingResult) :
    List DockingResult :=
  filterTags f.tags (filterTool f.tool (filterMaxEnergy f.maxEnergy
    (filterMinEnergy f.minEnergy (filterLigand f.ligand
      (filterProtein f.protein results)))))

end Query

/-- The four-stage pipeline (FieldExtractor → Classifier → IntegrityAnchor
→ Repository) as chained by the plugin's actions: `parseDockingContent`
of `parseDockingFile.ts`, then `applyTags` of AUTO_TAG_DOCKING_RESULT,
then `storeMetadataAction.handler`; a parse failure aborts before any
state mutation. -/
def pipeline (h sha : String → String) (st : StoreMeta.Settings)
    (ts content : String) (store : List DockingResult) :
    Except String DockingResult × List DockingResult :=
  match ParseFile.parseDockingContent sha content with
  | none => (Except.error "PARSE_FAILED", store)
  | some p => StoreMeta.storeMetadataHandler h st (some (AutoTag.applyTags p)) ts store

/-- Mutating the last element of a store that was just extended by `push`
touches exactly the pushed element. -/
theorem mutateLast_append_singleton (f : DockingResult → DockingResult)
    (store : List DockingResult) (r : DockingResult) :
    Workflow.mutateLast f (store ++ [r]) = store ++ [f r] := by
  induction store with
  | nil => rfl
  | cons a s ih =>
    cases s with
    | nil => rfl
    | cons b s2 => exact congrArg (List.cons a) ih

/-- Shared concrete tagged record used by the concrete evaluations below. -/
def sampleTagged : TaggedDockingData :=
  { protein := "1ABC"
    ligand := "MOL123"
    binding_energy := Rat.divInt (-17) 2
    docking_tool := "AutoDock Vina"
    file_hash := "FILEHASH"
    tags := ["strong_binder", "tool_autodock_vina", "protein_identified", "ligand_identified"]
    confidence := 1 }

/-- Shared concrete ISO-8601 timestamp used by the concrete evaluations. -/
def sampleTs : String := "2024-01-01T00:00:00.000Z"

/-- Claim C1 counterexample: in the combined workflow the record is pushed
into `global.dockingResults` with `solana_tx = null`, and the stored object
is then mutated (`result.solana_tx = mockTxId`), so the stored copy is NOT
identical to the value it had at append time — its ledger-reference field
changed from `null` to the mock transaction id. -/
theorem claim_C1_counterexample :
    (Workflow.finalStore (fun _ => "") sampleTagged sampleTs []).map
        (fun r => r.solana_tx) = [some "MOCK_"] ∧
    (Workflow.appendTimeRecord sampleTagged sampleTs).solana_tx = none ∧
    Workflow.finalStore (fun _ => "") sampleTagged sampleTs [] ≠
      [Workflow.appendTimeRecord sampleTagged sampleTs] := by
  refine ⟨by decide, by decide, fun he => ?_⟩
  exact absurd (congrArg (List.map (fun r => r.solana_tx)) he) (by decide)

/-- Claim C1 (amended): after the workflow handler finishes, the store is
the old store plus exactly one new record; every field of the new record
except `solana_tx` keeps its append-time value, the earlier records are
untouched and nothing is removed, and the only post-append mutation is the
single assignment of `solana_tx` from `null` to the mock transaction id. -/
theorem claim_C1_amended (h : String → String) (t : TaggedDockingData)
    (ts : String) (store : List DockingResult) :
    Workflow.finalStore h t ts store =
      store ++ [{ Workflow.appendTimeRecord t ts with
        solana_tx := some (Workflow.mockTxId h (Workflow.appendTimeRecord t ts)) }] := by
  unfold Workflow.finalStore Workflow.afterPush
  exact mutateLast_append_singleton _ _ _

/-- The empty filter leaves the record list unchanged. -/
theorem queryDatabase_empty (l : List DockingResult) :
    Query.queryDatabase Query.emptyFilters l = l := rfl

/-- Claim C7: when the ledger is not configured (absent or empty RPC URL or
private key), `createSolanaProof` yields `null` without failing, and the
record is persisted anyway — it is appended to the store with
`solana_tx = null` and is returned by a subsequent (unfiltered) query. -/
theorem claim_C7 (h : String → String) (st : StoreMeta.Settings)
    (t : TaggedDockingData) (ts : String) (store : List DockingResult)
    (hun : StoreMeta.jsFalsy st.rpcUrl = true ∨ StoreMeta.jsFalsy st.privateKey = true) :
    StoreMeta.storeMetadataHandler h st (some t) ts store =
      (Except.ok (StoreMeta.storeInDatabase t ts),
        store ++ [StoreMeta.storeInDatabase t ts]) ∧
    (StoreMeta.storeInDatabase t ts).solana_tx = none ∧
    StoreMeta.storeInDatabase t ts ∈
      Query.queryDatabase Query.emptyFilters (store ++ [StoreMeta.storeInDatabase t ts]) := by
  have hnone : StoreMeta.createSolanaProof h st (StoreMeta.storeInDatabase t ts) = none := by
    unfold StoreMeta.createSolanaProof
    rcases hun with h1 | h1 <;> simp [h1]
  have hfr : StoreMeta.finalRecord h st t ts = StoreMeta.storeInDatabase t ts := by
    show ({ StoreMeta.storeInDatabase t ts with
        solana_tx :=
          StoreMeta.createSolanaProof h st (StoreMeta.storeInDatabase t ts) } :
        DockingResult) = StoreMeta.storeInDatabase t ts
    rw [hnone]
    rfl
  refine ⟨?_, rfl, ?_⟩
  · show (Except.ok (StoreMeta.finalRecord h st t ts),
        store ++ [StoreMeta.finalRecord h st t ts]) =
      (Except.ok (StoreMeta.storeInDatabase t ts),
        store ++ [StoreMeta.storeInDatabase t ts])
    rw [hfr]
  · rw [queryDatabase_empty]
    simp

/-- Claim C7 witness: the theorem applied to an unconfigured ledger
(`SOLANA_RPC_URL` absent) and a concrete record. -/
theorem claim_C7_witness :
    StoreMeta.jsFalsy (StoreMeta.Settings.mk none (some "key")).rpcUrl = true ∧
    StoreMeta.storeMetadataHandler (fun _ => "") ⟨none, some "key"⟩
        (some sampleTagged) sampleTs [] =
      (Except.ok (StoreMeta.storeInDatabase sampleTagged sampleTs),
        [StoreMeta.storeInDatabase sampleTagged sampleTs]) :=
  ⟨by decide,
   (claim_C7 (fun _ => "") ⟨none, some "key"⟩ sampleTagged sampleTs []
      (Or.inl (by decide))).1⟩

/-- Claim C9: invoking the tagging stage without parsed upstream data, or
the store/anchor stage without tagged upstream data, yields a failure
result with the MISSING_PARSED_DATA / MISSING_TAGGED_DATA error and leaves
the store unchanged. -/
theorem claim_C9 (h : String → String) (st : StoreMeta.Settings)
    (ts : String) (store : List DockingResult) :
    AutoTag.autoTagHandler none = Except.error "MISSING_PARSED_DATA" ∧
    StoreMeta.storeMetadataHandler h st none ts store =
      (Except.error "MISSING_TAGGED_DATA", store) :=
  ⟨rfl, rfl⟩

/-- The very-strong tier tag is produced exactly below −10. -/
theorem energyTier_eq_vs (e : ℚ) :
    energyTier e = "very_strong_binder" ↔ e < -10 := by
  unfold energyTier
  split_ifs with h1 h2 h3 h4
  · exact ⟨fun _ => h1, fun _ => rfl⟩
  · exact ⟨fun hs => absurd hs (by decide), fun hlt => absurd hlt h1⟩
  · exact ⟨fun hs => absurd hs (by decide), fun hlt => absurd hlt h1⟩
  · exact ⟨fun hs => absurd hs (by decide), fun hlt => absurd hlt h1⟩
  · exact ⟨fun hs => absurd hs (by decide), fun hlt => absurd hlt h1⟩

/-- The strong tier tag is produced exactly on [−10, −8). -/
theorem energyTier_eq_s (e : ℚ) :
    energyTier e = "strong_binder" ↔ -10 ≤ e ∧ e < -8 := by
  unfold energyTier
  split_ifs with h1 h2 h3 h4
  · exact ⟨fun hs => absurd hs (by decide), fun hc => absurd h1 (not_lt.mpr hc.1)⟩
  · exact ⟨fun _ => ⟨not_lt.mp h1, h2⟩, fun _ => rfl⟩
  · exact ⟨fun hs => absurd hs (by decide), fun hc => absurd hc.2 h2⟩
  · exact ⟨fun hs => absurd hs (by decide), fun hc => absurd hc.2 h2⟩
  · exact ⟨fun hs => absurd hs (by decide), fun hc => absurd hc.2 h2⟩

/-- The moderate tier tag is produced exactly on [−8, −6). -/
theorem energyTier_eq_m (e : ℚ) :
    energyTier e = "moderate_binder" ↔ -8 ≤ e ∧ e < -6 := by
  unfold energyTier
  split_ifs with h1 h2 h3 h4
  · exact ⟨fun hs => absurd hs (by decide),
      fun hc => absurd h1 (not_lt.mpr (le_trans (by norm_num) hc.1))⟩
  · exact ⟨fun hs => absurd hs (by decide), fun hc => absurd h2 (not_lt.mpr hc.1)⟩
  · exact ⟨fun _ => ⟨not_lt.mp h2, h3⟩, fun _ => rfl⟩
  · exact ⟨fun hs => absurd hs (by decide), fun hc => absurd hc.2 h3⟩
  · exact ⟨fun hs => absurd hs (by decide), fun hc => absurd hc.2 h3⟩

/-- The weak tier tag is produced exactly on [−6, −4). -/
theorem energyTier_eq_w (e : ℚ) :
    energyTier e = "weak_binder" ↔ -6 ≤ e ∧ e < -4 := by
  unfold energyTier
  split_ifs with h1 h2 h3 h4
  · exact ⟨fun hs => absurd hs (by decide),
      fun hc => absurd h1 (not_lt.mpr (le_trans (by norm_num) hc.1))⟩
  · exact ⟨fun hs => absurd hs (by decide),
      fun hc => absurd h2 (not_lt.mpr (le_trans (by norm_num) hc.1))⟩
  · exact ⟨fun hs => absurd hs (by decide), fun hc => absurd h3 (not_lt.mpr hc.1)⟩
  · exact ⟨fun _ => ⟨not_lt.mp h3, h4⟩, fun _ => rfl⟩
  · exact ⟨fun hs => absurd hs (by decide), fun hc => absurd hc.2 h4⟩

/-- The very-weak tier tag is produced exactly at or above −4. -/
theorem energyTier_eq_vw (e : ℚ) :
    energyTier e = "very_weak_binder" ↔ -4 ≤ e := by
  unfold energyTier
  split_ifs with h1 h2 h3 h4
  · exact ⟨fun hs => absurd hs (by decide),
      fun hc => absurd h1 (not_lt.mpr (le_trans (by norm_num) hc))⟩
  · exact ⟨fun hs => absurd hs (by decide),
      fun hc => absurd h2 (not_lt.mpr (le_trans (by norm_num) hc))⟩
  · exact ⟨fun hs => absurd hs (by decide),
      fun hc => absurd h3 (not_lt.mpr (le_trans (by norm_num) hc))⟩
  · exact ⟨fun hs => absurd hs (by decide), fun hc => absurd h4 (not_lt.mpr hc)⟩
  · exact ⟨fun _ => not_lt.mp h4, fun _ => rfl⟩

/-- The tier chain always yields one of the five tier tags. -/
theorem isTierTag_energyTier (e : ℚ) : isTierTag (energyTier e) = true := by
  unfold energyTier
  split_ifs <;> decide

/-- A tool tag always begins with the letter t. -/
theorem toolTag_data (s : String) :
    (toolTag s).data = 't' :: 'o' :: 'o' :: 'l' :: '_' :: squashWs (jsToLower s).data :=
  rfl

/-- A tool tag is never equal to a string that does not begin with t. -/
theorem toolTag_ne (s t : String) (ht : t.data.head? ≠ some 't') :
    toolTag s ≠ t := by
  intro he
  apply ht
  rw [← he]
  rfl

/-- A tool tag is never one of the five tier tags. -/
theorem isTierTag_toolTag (s : String) : isTierTag (toolTag s) = false := by
  rw [isTierTag, decide_eq_false_iff_not]
  intro hmem
  rcases hmem with h | h | h | h | h
  · exact toolTag_ne s "very_strong_binder" (by decide) h
  · exact toolTag_ne s "strong_binder" (by decide) h
  · exact toolTag_ne s "moderate_binder" (by decide) h
  · exact toolTag_ne s "weak_binder" (by decide) h
  · exact toolTag_ne s "very_weak_binder" (by decide) h

/-- The tag list produced by the standalone classifier contains exactly one
energy-tier tag. -/
theorem countP_applyTags (d : ParsedDockingData) :
    (AutoTag.applyTags d).tags.countP isTierTag = 1 := by
  have hp : isTierTag (if d.protein ≠ "UNKNOWN" ∧ d.protein ≠ "GENERIC_PROTEIN" then
      "protein_identified" else "protein_unknown") = false := by
    split_ifs <;> decide
  have hl : isTierTag (if d.ligand ≠ "UNKNOWN" ∧ d.ligand ≠ "GENERIC_LIGAND" then
      "ligand_identified" else "ligand_unknown") = false := by
    split_ifs <;> decide
  show List.countP isTierTag
      [energyTier d.binding_energy, toolTag d.docking_tool,
        (if d.protein ≠ "UNKNOWN" ∧ d.protein ≠ "GENERIC_PROTEIN" then
          "protein_identified" else "protein_unknown"),
        (if d.ligand ≠ "UNKNOWN" ∧ d.ligand ≠ "GENERIC_LIGAND" then
          "ligand_identified" else "ligand_unknown")] = 1
  rw [List.countP_cons, List.countP_cons, List.countP_cons, List.countP_cons,
    List.countP_nil, isTierTag_energyTier, isTierTag_toolTag, hp, hl]
  decide

/-- Claim C4: energy-tier tagging partitions the (rational-valued) energy
line exhaustively and without overlap — very strong below −10, strong on
[−10,−8), moderate on [−8,−6), weak on [−6,−4), very weak at or above −4 —
with boundary values assigned per the half-open convention (energy exactly
−10 gets the strong tier), and the classifier emits exactly one tier tag,
as the first tag. -/
theorem claim_C4 (e : ℚ) (d : ParsedDockingData) :
    (energyTier e = "very_strong_binder" ↔ e < -10) ∧
    (energyTier e = "strong_binder" ↔ -10 ≤ e ∧ e < -8) ∧
    (energyTier e = "moderate_binder" ↔ -8 ≤ e ∧ e < -6) ∧
    (energyTier e = "weak_binder" ↔ -6 ≤ e ∧ e < -4) ∧
    (energyTier e = "very_weak_binder" ↔ -4 ≤ e) ∧
    energyTier (-10) = "strong_binder" ∧
    isTierTag (energyTier e) = true ∧
    (AutoTag.applyTags d).tags.countP isTierTag = 1 ∧
    (AutoTag.applyTags d).tags.head? = some (energyTier d.binding_energy) :=
  ⟨energyTier_eq_vs e, energyTier_eq_s e, energyTier_eq_m e, energyTier_eq_w e,
   energyTier_eq_vw e, by decide, isTierTag_energyTier e, countP_applyTags d, rfl⟩

/-- Claim C5: the classifier's confidence is the capped sum of the four
evidence indicators (+0.3 identified protein, +0.3 identified ligand,
+0.2 nonzero negative energy, +0.2 known tool), and always lies in [0, 1]. -/
theorem claim_C5 (d : ParsedDockingData) :
    AutoTag.calculateConfidence d =
      min ((if d.protein ≠ "UNKNOWN" ∧ d.protein ≠ "GENERIC_PROTEIN" then (0.3 : ℚ) else 0) +
        (if d.ligand ≠ "UNKNOWN" ∧ d.ligand ≠ "GENERIC_LIGAND" then (0.3 : ℚ) else 0) +
        (if d.binding_energy ≠ 0 ∧ d.binding_energy < 0 then (0.2 : ℚ) else 0) +
        (if d.docking_tool ≠ "Unknown" then (0.2 : ℚ) else 0)) 1 ∧
    0 ≤ AutoTag.calculateConfidence d ∧
    AutoTag.calculateConfidence d ≤ 1 ∧
    (AutoTag.applyTags d).confidence = AutoTag.calculateConfidence d := by
  refine ⟨rfl, ?_, ?_, rfl⟩
  · unfold AutoTag.calculateConfidence
    split_ifs <;> norm_num
  · unfold AutoTag.calculateConfidence
    exact min_le_right _ _

/-- A record carrying the generic-fallback sentinels, as produced by
`parseGenericFormat` (energy −6, tool Unknown). -/
def genericParsed : ParsedDockingData :=
  ⟨"GENERIC_PROTEIN", "GENERIC_LIGAND", -6, "Unknown", "HASH0"⟩

/-- A fully identified record (Scenario A shape: protein 1ABC, ligand
MOL123, energy −8.7 i.e. −87/10, tool AutoDock Vina). -/
def identifiedParsed : ParsedDockingData :=
  ⟨"1ABC", "MOL123", Rat.divInt (-87) 10, "AutoDock Vina", "HASH1"⟩

/-- Claim C10 counterexample: on the generic-fallback sentinels the
standalone classifier and the workflow's duplicate disagree — the
standalone one tags `protein_unknown` / `ligand_unknown` and scores 0.2,
the workflow one tags `protein_identified` / `ligand_identified` and
scores 0.8. -/
theorem claim_C10_counterexample :
    (AutoTag.applyTags genericParsed).tags =
      ["weak_binder", "tool_unknown", "protein_unknown", "ligand_unknown"] ∧
    (Workflow.applyTags genericParsed).tags =
      ["weak_binder", "tool_unknown", "protein_identified", "ligand_identified"] ∧
    (AutoTag.applyTags genericParsed).confidence = 0.2 ∧
    (Workflow.applyTags genericParsed).confidence = 0.8 ∧
    AutoTag.applyTags genericParsed ≠ Workflow.applyTags genericParsed := by
  have hA : (AutoTag.applyTags genericParsed).confidence =
      min ((0 : ℚ) + 0 + 0.2 + 0) 1 := rfl
  have hB : (Workflow.applyTags genericParsed).confidence =
      min ((0.3 : ℚ) + 0.3 + 0.2 + 0) 1 := rfl
  refine ⟨by decide, by decide, ?_, ?_, ?_⟩
  · rw [hA, min_def]
    norm_num
  · rw [hB, min_def]
    norm_num
  · intro he
    exact absurd (congrArg (fun r => r.tags) he) (by decide)

/-- Claim C10 (amended): the two classifiers agree (same tag list, same
confidence) exactly on the records whose protein and ligand are both
identified, i.e. carry neither the `UNKNOWN` nor the `GENERIC_*`
sentinels; on sentinel-carrying inputs they diverge as the counterexample
shows. -/
theorem claim_C10_amended (d : ParsedDockingData)
    (h1 : d.protein ≠ "UNKNOWN") (h2 : d.protein ≠ "GENERIC_PROTEIN")
    (h3 : d.ligand ≠ "UNKNOWN") (h4 : d.ligand ≠ "GENERIC_LIGAND") :
    AutoTag.applyTags d = Workflow.applyTags d := by
  unfold AutoTag.applyTags Workflow.applyTags AutoTag.calculateConfidence
  simp [h1, h2, h3, h4]

/-- Claim C10 witness: the amended equivalence applied to a concrete fully
identified record. -/
theorem claim_C10_witness :
    AutoTag.applyTags identifiedParsed = Workflow.applyTags identifiedParsed :=
  claim_C10_amended identifiedParsed (by decide) (by decide) (by decide) (by decide)

/-- A Glide-flagged submission in which none of the Glide field patterns
matches anything. -/
def glideNoFields : String := "Glide output data"

/-- Claim C2 counterexample: on a Glide-flagged input where neither the
receptor nor the title nor the docking-score pattern matches, the Glide
ruleset does not fall back to the `UNKNOWN` sentinel: it fabricates the
plausible-looking defaults `MOCK_PROTEIN` / `MOCK_LIGAND` and the nonzero
default binding energy −7.5. -/
theorem claim_C2_counterexample :
    matchKwWord "receptor" glideNoFields = none ∧
    matchKwWord "title" glideNoFields = none ∧
    matchTwoKwNum "docking" "score" glideNoFields = none ∧
    ParseFile.parseDockingContent (fun _ => "H0") glideNoFields =
      some ⟨"MOCK_PROTEIN", "MOCK_LIGAND", -7.5, "Glide", "H0"⟩ ∧
    ("MOCK_PROTEIN" : String) ≠ "UNKNOWN" ∧ ((-7.5 : ℚ) ≠ 0) := by
  refine ⟨by decide, by decide, by decide, rfl, by decide, by norm_num⟩

/-- Claim C2 (amended): unlocated fields default per ruleset — the Vina
and GOLD rulesets use the `UNKNOWN` sentinel and energy 0; the Glide
ruleset uses the mock values `MOCK_PROTEIN` / `MOCK_LIGAND` and energy
−7.5; the generic fallback always returns the fixed placeholders
`GENERIC_PROTEIN` / `GENERIC_LIGAND` with energy −6 on every input it
accepts. -/
theorem claim_C2_amended (content fileHash : String)
    (hv1 : matchKwWord "receptor" content = none)
    (hv2 : matchKwWord "protein" content = none)
    (hv3 : matchKwWord "ligand" content = none)
    (hv4 : matchRemarkName content = none)
    (hv5 : matchVinaTable content = none)
    (hg : matchTwoKwNum "gold" "score" content = none)
    (hgl1 : matchKwWord "title" content = none)
    (hgl2 : matchTwoKwNum "docking" "score" content = none) :
    ParseFile.parseVinaFormat content fileHash =
      some ⟨"UNKNOWN", "UNKNOWN", 0, "AutoDock Vina", fileHash⟩ ∧
    ParseFile.parseGoldFormat content fileHash =
      some ⟨"UNKNOWN", "UNKNOWN", 0, "GOLD", fileHash⟩ ∧
    ParseFile.parseGlideFormat content fileHash =
      some ⟨"MOCK_PROTEIN", "MOCK_LIGAND", -7.5, "Glide", fileHash⟩ ∧
    (10 ≤ content.length →
      ParseFile.parseGenericFormat content fileHash =
        some ⟨"GENERIC_PROTEIN", "GENERIC_LIGAND", -6, "Unknown", fileHash⟩) := by
  refine ⟨?_, ?_, ?_, fun hlen => ?_⟩
  · unfold ParseFile.parseVinaFormat
    rw [hv1, hv2, hv3, hv4, hv5]
    rfl
  · unfold ParseFile.parseGoldFormat
    rw [hv2, hv3, hg]
  · unfold ParseFile.parseGlideFormat
    rw [hv1, hgl1, hgl2]
  · unfold ParseFile.parseGenericFormat
    rw [if_neg (by omega)]

/-- Claim C2 witness: the amended statement applied to a concrete
pattern-free input of length at least 10. -/
theorem claim_C2_witness :
    ParseFile.parseVinaFormat "plain text content" "FH" =
      some ⟨"UNKNOWN", "UNKNOWN", 0, "AutoDock Vina", "FH"⟩ ∧
    ParseFile.parseGenericFormat "plain text content" "FH" =
      some ⟨"GENERIC_PROTEIN", "GENERIC_LIGAND", -6, "Unknown", "FH"⟩ := by
  have H := claim_C2_amended "plain text content" "FH" (by decide) (by decide)
    (by decide) (by decide) (by decide) (by decide) (by decide) (by decide)
  exact ⟨H.1, H.2.2.2 (by decide)⟩

/-- Claim C6 counterexample: the input `GOLD` has length 4 < 10 yet is NOT
rejected — the GOLD marker routes it to the GOLD ruleset, which accepts it
with all-sentinel fields (the `length < 10` rejection lives only in the
generic fallback). -/
theorem claim_C6_counterexample :
    ("GOLD" : String).length < 10 ∧
    ParseFile.parseDockingContent (fun _ => "h") "GOLD" =
      some ⟨"UNKNOWN", "UNKNOWN", 0, "GOLD", "h"⟩ :=
  ⟨by decide, rfl⟩

/-- Claim C6 (amended): every input of length at least 10 is accepted by
some ruleset; an input shorter than 10 is rejected if and only if it
contains none of the tool markers (marker-bearing short inputs are
accepted by the marker's ruleset); and on a rejected input the pipeline
aborts with PARSE_FAILED and the store is unchanged. -/
theorem claim_C6_amended (hh sha : String → String) (st : StoreMeta.Settings)
    (ts content : String) (store : List DockingResult) :
    (10 ≤ content.length → (ParseFile.parseDockingContent sha content).isSome = true) ∧
    (jsIncludes content "AutoDock Vina" = false → jsIncludes content "VINA RESULT" = false →
      jsIncludes content "GOLD" = false → jsIncludes content "Gold Score" = false →
      jsIncludes content "Glide" = false → jsIncludes content "GLIDE" = false →
      content.length < 10 → ParseFile.parseDockingContent sha content = none) ∧
    (ParseFile.parseDockingContent sha content = none →
      pipeline hh sha st ts content store = (Except.error "PARSE_FAILED", store)) := by
  refine ⟨fun hlen => ?_, fun h1 h2 h3 h4 h5 h6 hlen => ?_, fun hnone => ?_⟩
  · unfold ParseFile.parseDockingContent
    split_ifs
    · rfl
    · rfl
    · rfl
    · unfold ParseFile.parseGenericFormat
      rw [if_neg (by omega)]
      rfl
  · simp [ParseFile.parseDockingContent, h1, h2, h3, h4, h5, h6,
      ParseFile.parseGenericFormat, hlen]
  · simp [pipeline, hnone]

/-- Claim C6 witness: the amended statement applied to the concrete
marker-free input `bad` of length 3. -/
theorem claim_C6_witness :
    ParseFile.parseDockingContent (fun _ => "h2") "bad" = none ∧
    pipeline (fun _ => "h2") (fun _ => "h2") ⟨none, none⟩ "TS" "bad" [] =
      (Except.error "PARSE_FAILED", []) := by
  have H := claim_C6_amended (fun _ => "h2") (fun _ => "h2") ⟨none, none⟩ "TS" "bad" []
  have hn := H.2.1 (by decide) (by decide) (by decide) (by decide) (by decide)
    (by decide) (by decide)
  exact ⟨hn, H.2.2 hn⟩

/-- Membership characterization of the protein filter step. -/
theorem mem_filterProtein (o : Option String) (l : List DockingResult)
    (r : DockingResult) :
    r ∈ Query.filterProtein o l ↔
      r ∈ l ∧ ∀ p ∈ o, jsIncludes (jsToUpper r.protein) (jsToUpper p) = true := by
  cases o <;> simp [Query.filterProtein, List.mem_filter]

/-- Membership characterization of the ligand filter step. -/
theorem mem_filterLigand (o : Option String) (l : List DockingResult)
    (r : DockingResult) :
    r ∈ Query.filterLigand o l ↔
      r ∈ l ∧ ∀ lg ∈ o, jsIncludes (jsToUpper r.ligand) (jsToUpper lg) = true := by
  cases o <;> simp [Query.filterLigand, List.mem_filter]

/-- Membership characterization of the inclusive lower energy bound. -/
theorem mem_filterMinEnergy (o : Option ℚ) (l : List DockingResult)
    (r : DockingResult) :
    r ∈ Query.filterMinEnergy o l ↔ r ∈ l ∧ ∀ m ∈ o, m ≤ r.binding_energy := by
  cases o <;> simp [Query.filterMinEnergy, List.mem_filter]

/-- Membership characterization of the inclusive upper energy bound. -/
theorem mem_filterMaxEnergy (o : Option ℚ) (l : List DockingResult)
    (r : DockingResult) :
    r ∈ Query.filterMaxEnergy o l ↔ r ∈ l ∧ ∀ m ∈ o, r.binding_energy ≤ m := by
  cases o <;> simp [Query.filterMaxEnergy, List.mem_filter]

/-- Membership characterization of the tool filter step. -/
theorem mem_filterTool (o : Option String) (l : List DockingResult)
    (r : DockingResult) :
    r ∈ Query.filterTool o l ↔
      r ∈ l ∧ ∀ t ∈ o, jsIncludes (jsToLower r.docking_tool) (jsToLower t) = true := by
  cases o <;> simp [Query.filterTool, List.mem_filter]

/-- Membership characterization of the tag filter step. -/
theorem mem_filterTags (o : Option (List String)) (l : List DockingResult)
    (r : DockingResult) :
    r ∈ Query.filterTags o l ↔
      r ∈ l ∧ ∀ tgs ∈ o, 0 < tgs.length →
        tgs.any (fun tag => r.tags.contains tag) = true := by
  cases o with
  | none => simp [Query.filterTags]
  | some tgs =>
    by_cases htg : 0 < tgs.length
    · simp [Query.filterTags, htg, List.mem_filter]
    · simp [Query.filterTags, htg]

/-- Claim C8: query evaluation is a strict conjunction over all present
filter dimensions — a record is in the result exactly when it is stored
and satisfies every present filter: case-insensitive substring containment
for protein, ligand and tool, inclusive energy bounds, and
any-of-the-requested-tags for the tag filter. -/
theorem claim_C8 (f : Query.QueryFilters) (rs : List DockingResult)
    (r : DockingResult) :
    r ∈ Query.queryDatabase f rs ↔
      r ∈ rs ∧
      (∀ p ∈ f.protein, jsIncludes (jsToUpper r.protein) (jsToUpper p) = true) ∧
      (∀ lg ∈ f.ligand, jsIncludes (jsToUpper r.ligand) (jsToUpper lg) = true) ∧
      (∀ m ∈ f.minEnergy, m ≤ r.binding_energy) ∧
      (∀ m ∈ f.maxEnergy, r.binding_energy ≤ m) ∧
      (∀ t ∈ f.tool, jsIncludes (jsToLower r.docking_tool) (jsToLower t) = true) ∧
      (∀ tgs ∈ f.tags, 0 < tgs.length →
        tgs.any (fun tag => r.tags.contains tag) = true) := by
  unfold Query.queryDatabase
  rw [mem_filterTags, mem_filterTool, mem_filterMaxEnergy, mem_filterMinEnergy,
    mem_filterLigand, mem_filterProtein]
  tauto

/-- Claim C3 (amended): in the STORE_METADATA path the round-trip holds —
the canonical 8-field serialization is unchanged by filling in
`solana_tx`, so recomputing the digest-based mock transaction id from the
retrieved record's fixed field subset reproduces exactly the id that was
submitted; in the combined-workflow path it fails, because that digest is
taken over the full record (its own key order, plus `solana_tx: null`),
as the counterexample shows. -/
theorem claim_C3_amended (h : String → String) (st : StoreMeta.Settings)
    (t : TaggedDockingData) (ts : String) (store : List DockingResult)
    (hu : StoreMeta.jsFalsy st.rpcUrl = false)
    (hk : StoreMeta.jsFalsy st.privateKey = false) :
    (StoreMeta.storeMetadataHandler h st (some t) ts store).1 =
      Except.ok (StoreMeta.finalRecord h st t ts) ∧
    StoreMeta.canonicalMetadataString (StoreMeta.finalRecord h st t ts) =
      StoreMeta.canonicalMetadataString (StoreMeta.storeInDatabase t ts) ∧
    (StoreMeta.finalRecord h st t ts).solana_tx =
      some ("MOCK_" ++
        (h (StoreMeta.canonicalMetadataString (StoreMeta.finalRecord h st t ts))).take 16) := by
  have hcan : StoreMeta.canonicalMetadataString (StoreMeta.finalRecord h st t ts) =
      StoreMeta.canonicalMetadataString (StoreMeta.storeInDatabase t ts) := rfl
  refine ⟨rfl, hcan, ?_⟩
  show StoreMeta.createSolanaProof h st (StoreMeta.storeInDatabase t ts) = _
  unfold StoreMeta.createSolanaProof
  rw [hu, hk, hcan]
  rfl

/-- Claim C3 witness: the amended round-trip applied to a configured
ledger and a concrete record. -/
theorem claim_C3_witness :
    StoreMeta.jsFalsy (some "https://rpc") = false ∧
    (StoreMeta.finalRecord (fun s => s) ⟨some "https://rpc", some "key"⟩
        sampleTagged sampleTs).solana_tx =
      some ("MOCK_" ++
        ((fun s => s) (StoreMeta.canonicalMetadataString
          (StoreMeta.finalRecord (fun s => s) ⟨some "https://rpc", some "key"⟩
            sampleTagged sampleTs))).take 16) :=
  ⟨by decide,
   (claim_C3_amended (fun s => s) ⟨some "https://rpc", some "key"⟩
      sampleTagged sampleTs [] (by decide) (by decide)).2.2⟩

/-- A stand-in digest function for the concrete counterexample: the
decimal length of the serialized input (two serializations of different
length therefore get different digests, as with any real hash). -/
def lenHash (s : String) : String := toString s.length

/-- Claim C3 counterexample: for the record stored by the combined
workflow, the digest underlying the submitted mock transaction id is
computed over the FULL record serialization (key order of the workflow
object, including `solana_tx: null`), which differs from the canonical
8-field subset serialization; recomputing the id from the retrieved
record's fixed field subset therefore does not reproduce the submitted
one. -/
theorem claim_C3_counterexample :
    StoreMeta.canonicalMetadataString (Workflow.appendTimeRecord sampleTagged sampleTs) ≠
      Workflow.workflowResultString (Workflow.appendTimeRecord sampleTagged sampleTs) ∧
    (Workflow.finalStore lenHash sampleTagged sampleTs []).map (fun r => r.solana_tx) =
      [some (Workflow.mockTxId lenHash (Workflow.appendTimeRecord sampleTagged sampleTs))] ∧
    Workflow.mockTxId lenHash (Workflow.appendTimeRecord sampleTagged sampleTs) ≠
      "MOCK_" ++ (lenHash (StoreMeta.canonicalMetadataString
        (Workflow.appendTimeRecord sampleTagged sampleTs))).take 16 := by
  refine ⟨by decide, rfl, by decide⟩
